import Mathlib

/-!
Shallow embedding of the ELF parsing core of `src/src/ELF/Parser.cpp`
(`LIEF::ELF::Parser`): class detection and dispatch, dynamic string-table
resolution (segment strategy with section fallback), symbol-version table
reading and all-or-nothing linking, and the entry points.

Machine integers are modelled as `Nat`, with an explicit `% 2 ^ w` where the
source narrows a value (the `static_cast<uint32_t>` in `parse_symbol_version`).
Raw-struct reinterpretation of bytes is modelled as little-endian fixed-width
field decoding, per the spec's design note on declared endianness.

Components of the repository that are not under `src/` (the `VectorStream`
byte source, `is_elf`, `Binary::virtual_address_to_offset`, the abstract
`LIEF::Parser` base, and the `Parser.tcc` extraction routines) are modelled
from the spec; each such definition carries a doc comment saying so.
-/

namespace LIEFELF

/-- Error kinds of the parsing core, following the spec's error-handling
design (FormatMismatch, CorruptedHeader, OutOfBounds, UnmappedAddress,
ConversionError).  In the C++ these are the exception classes
`LIEF::bad_format`, `LIEF::corrupted`, the read-out-of-bound error,
and `LIEF::conversion_error`. -/
inductive Err where
  | FormatMismatch
  | CorruptedHeader
  | OutOfBounds
  | UnmappedAddress
  | ConversionError
  deriving DecidableEq, Repr

/-- Raw file content: a list of byte values. -/
abbrev Bytes := List Nat

/-- `SEGMENT_TYPES::PT_LOAD` (standard ELF program-header type). -/
def PT_LOAD : Nat := 1

/-- `SEGMENT_TYPES::PT_DYNAMIC` (standard ELF program-header type). -/
def PT_DYNAMIC : Nat := 2

/-- `SECTION_TYPES::SHT_STRTAB` (standard ELF section type). -/
def SHT_STRTAB : Nat := 3

/-- `DYNAMIC_TAGS::DT_STRTAB` (standard ELF dynamic tag: string-table address). -/
def DT_STRTAB : Nat := 5

/-- `ELF_CLASS::ELFCLASSNONE` (standard ELF identification class values). -/
def ELFCLASSNONE : Nat := 0

/-- `ELF_CLASS::ELFCLASS32`. -/
def ELFCLASS32 : Nat := 1

/-- `ELF_CLASS::ELFCLASS64`. -/
def ELFCLASS64 : Nat := 2

/-- `IDENTITY::EI_CLASS`: byte index of the architecture-class field inside
`e_ident` (standard ELF value 4). -/
def EI_CLASS : Nat := 4

/-- `sizeof(Elf32_Ehdr)` = 52 bytes: the header prefix read by `Parser::init`. -/
def sizeofElf32Ehdr : Nat := 52

/-- `sizeof(Elf32_Dyn)` = 8 bytes (`int32 d_tag`, `uint32 d_un`). -/
def sizeofElf32Dyn : Nat := 8

/-- `sizeof(Elf64_Dyn)` = 16 bytes (`int64 d_tag`, `uint64 d_un`). -/
def sizeofElf64Dyn : Nat := 16

/-- Modelled from the spec (ByteSource, §4.1; `VectorStream` is not in
`src/`): `read(offset, length)` returns the byte view
`[offset, offset+length)` when `offset + length` is within the buffer and
fails with `OutOfBounds` otherwise. -/
def ByteSource.read (data : Bytes) (offset length : Nat) : Except Err Bytes :=
  if offset + length ≤ data.length then
    Except.ok ((data.drop offset).take length)
  else
    Except.error Err.OutOfBounds

/-- Little-endian decode of a `width`-byte unsigned integer at byte index
`off` of `data` (out-of-range bytes read as 0).  Models the raw-struct
field reinterpretation of the C++ as an explicit decode, per the spec's
design note. -/
def readLE (data : Bytes) : Nat → Nat → Nat
  | _, 0 => 0
  | off, w + 1 => data.getD off 0 + 256 * readLE data (off + 1) w

/-- One program-header entry (`Segment`): the fields used by the parsing
core. -/
structure Segment where
  seg_type : Nat
  file_offset : Nat
  physical_size : Nat
  virtual_address : Nat
  memory_size : Nat
  deriving DecidableEq, Repr

/-- One section-header entry (`Section`): the fields used by the parsing
core. -/
structure Section where
  name : String
  sec_type : Nat
  file_offset : Nat
  deriving DecidableEq, Repr

/-- One parsed entry of the version array (`SymbolVersion{uint16}`). -/
structure SymbolVersion where
  value : Nat
  deriving DecidableEq, Repr

/-- One dynamic symbol; `symbol_version` is the lazily-linked, initially
absent reference to its `SymbolVersion` (`symbol_version_` in C++). -/
structure Symbol where
  value : Nat
  symbol_version : Option SymbolVersion
  deriving DecidableEq, Repr

/-- The parse result (`Binary` / BinaryImage): declared class (`type_`),
name, original size, and the ordered child sequences. -/
structure Binary where
  type_ : Nat
  name : String
  original_size : Nat
  segments : List Segment
  sections : List Section
  dynamic_symbols : List Symbol
  symbol_version_table : List SymbolVersion
  deriving DecidableEq, Repr

/-- Modelled from the spec (AddressTranslator, §4.3;
`Binary::virtual_address_to_offset` is not in `src/`): scan the Segment
sequence for the loadable region whose virtual-address range contains `va`
and return `file_offset + (va - virtual_address)`; fail with
`UnmappedAddress` when no segment contains `va` (an address exactly at
`virtual_address + memory_size` is out of range, one exactly at
`virtual_address` is in range). -/
def Binary.virtual_address_to_offset (b : Binary) (va : Nat) : Except Err Nat :=
  match b.segments.find? (fun s =>
      s.seg_type == PT_LOAD &&
      decide (s.virtual_address ≤ va) &&
      decide (va < s.virtual_address + s.memory_size)) with
  | some s => Except.ok (s.file_offset + (va - s.virtual_address))
  | none => Except.error Err.UnmappedAddress

/-- One decoded `ElfXX_Dyn` entry: tag and value. -/
structure DynEntry where
  d_tag : Nat
  d_val : Nat
  deriving DecidableEq, Repr

/-- Decode `n` `Elf32_Dyn` entries from `content`: entry `i` has its 32-bit
`d_tag` at byte `8*i` and its 32-bit `d_un.d_val` at byte `8*i+4`
(little-endian). -/
def decodeDyn32 (content : Bytes) (n : Nat) : List DynEntry :=
  (List.range n).map (fun i =>
    { d_tag := readLE content (8 * i) 4, d_val := readLE content (8 * i + 4) 4 })

/-- Decode `n` `Elf64_Dyn` entries from `content`: entry `i` has its 64-bit
`d_tag` at byte `16*i` and its 64-bit `d_un.d_val` at byte `16*i+8`
(little-endian). -/
def decodeDyn64 (content : Bytes) (n : Nat) : List DynEntry :=
  (List.range n).map (fun i =>
    { d_tag := readLE content (16 * i) 8, d_val := readLE content (16 * i + 8) 8 })

/-- The class-dependent decoding of the dynamic segment's content performed
by `get_dynamic_string_table_from_segments`: `size / sizeof(Elf32_Dyn)`
32-bit entries on the `ELFCLASS32` path, `size / sizeof(Elf64_Dyn)` 64-bit
entries otherwise. -/
def dynEntriesOf (b : Binary) (seg : Segment) (content : Bytes) : List DynEntry :=
  if b.type_ = ELFCLASS32 then
    decodeDyn32 content (seg.physical_size / sizeofElf32Dyn)
  else
    decodeDyn64 content (seg.physical_size / sizeofElf64Dyn)

/-- The scan loop of `get_dynamic_string_table_from_segments`: `va_offset`
starts at `acc` (0 at the call site) and is overwritten with
`virtual_address_to_offset(d_val)` at every entry whose tag is `DT_STRTAB`;
a translation failure propagates out of the loop. -/
def scanDynForStrtab (b : Binary) : List DynEntry → Nat → Except Err Nat
  | [], acc => Except.ok acc
  | e :: es, acc =>
    if e.d_tag = DT_STRTAB then
      match b.virtual_address_to_offset e.d_val with
      | Except.ok v => scanDynForStrtab b es v
      | Except.error err => Except.error err
    else
      scanDynForStrtab b es acc

/-- Whether a segment carries the dynamic type tag (the predicate of the
`find_if` in `get_dynamic_string_table_from_segments`). -/
def isDynamicSegment (s : Segment) : Bool :=
  s.seg_type == PT_DYNAMIC

/-- `Parser::get_dynamic_string_table_from_segments`: find the first
`PT_DYNAMIC` segment; read its content from the stream; decode the
class-dependent dynamic-entry array; scan it, last write winning, for
`DT_STRTAB`; return the final `va_offset` when it is nonzero and fail with
`ConversionError` otherwise (also when no dynamic segment exists, in which
case `va_offset` is still 0). -/
def get_dynamic_string_table_from_segments (b : Binary) (stream : Bytes) :
    Except Err Nat :=
  match b.segments.find? isDynamicSegment with
  | none => Except.error Err.ConversionError
  | some seg =>
    match ByteSource.read stream seg.file_offset seg.physical_size with
    | Except.error e => Except.error e
    | Except.ok content =>
      match scanDynForStrtab b (dynEntriesOf b seg content) 0 with
      | Except.error e => Except.error e
      | Except.ok va_offset =>
        if va_offset > 0 then Except.ok va_offset
        else Except.error Err.ConversionError

/-- Whether a section is the dynamic string-table section (the predicate of
the `find_if` in `get_dynamic_string_table_from_sections`): named exactly
`.dynstr` and of type `SHT_STRTAB`. -/
def isDynstrSection (s : Section) : Bool :=
  s.name == ".dynstr" && s.sec_type == SHT_STRTAB

/-- `Parser::get_dynamic_string_table_from_sections`: find the first section
named `.dynstr` of string-table type; `va_offset` is its file offset (0 when
absent); return it when nonzero, fail with `ConversionError` otherwise. -/
def get_dynamic_string_table_from_sections (b : Binary) : Except Err Nat :=
  match b.sections.find? isDynstrSection with
  | some s => if s.file_offset > 0 then Except.ok s.file_offset
              else Except.error Err.ConversionError
  | none => Except.error Err.ConversionError

/-- `Parser::get_dynamic_string_table`: try the segment strategy; on failure
fall back to the section strategy.  The C++ `catch` clause names
`LIEF::conversion_error`; the exception hierarchy is not in `src/`, and the
spec (§7) states that low-level read/translate failures are caught one layer
up wherever a fallback exists, so every failure of the segment strategy
falls through to the section strategy here. -/
def get_dynamic_string_table (b : Binary) (stream : Bytes) : Except Err Nat :=
  match get_dynamic_string_table_from_segments b stream with
  | Except.ok offset => Except.ok offset
  | Except.error _ => get_dynamic_string_table_from_sections b

/-- `Parser::link_symbol_version`: when the dynamic-symbol and
symbol-version sequences have equal lengths, set every symbol's version
reference to the version at the same index; otherwise do nothing. -/
def link_symbol_version (b : Binary) : Binary :=
  if b.dynamic_symbols.length = b.symbol_version_table.length then
    let linked := (b.dynamic_symbols.zip b.symbol_version_table).map
      (fun p => { p.1 with symbol_version := some p.2 })
    { b with dynamic_symbols := linked }
  else
    b

/-- `Parser::parse_symbol_version`: `nb_entries` is the dynamic-symbol count
narrowed by `static_cast<uint32_t>`; read `nb_entries * sizeof(uint16_t)`
bytes at `symbol_version_offset`; append one `SymbolVersion` per decoded
16-bit value, in array order, to the symbol-version table. -/
def parse_symbol_version (b : Binary) (stream : Bytes)
    (symbol_version_offset : Nat) : Except Err Binary :=
  let nb_entries := b.dynamic_symbols.length % 2 ^ 32
  match ByteSource.read stream symbol_version_offset (nb_entries * 2) with
  | Except.error e => Except.error e
  | Except.ok content =>
    let versions : List SymbolVersion :=
      (List.range nb_entries).map (fun i => ⟨readLE content (2 * i) 2⟩)
    Except.ok { b with symbol_version_table := b.symbol_version_table ++ versions }

/-- Which class-specialized extraction routine `Parser::init` dispatched to
(the `parse_binary<ELF32>` / `parse_binary<ELF64>` template instantiation). -/
inductive ParseRoute where
  | elf32
  | elf64
  deriving DecidableEq, Repr

/-- Modelled from the spec (§4.2, step 3; `Parser.tcc` is not in `src/`):
the class-specialized extraction routine populates the image's segment,
section and symbol sequences; its internals are outside the covered core,
and it leaves the class, name and original size unchanged.  The returned
route records which specialization ran. -/
def parse_binary (route : ParseRoute) (_stream : Bytes) (b : Binary) :
    Except Err (ParseRoute × Binary) :=
  Except.ok (route, b)

/-- `Parser::init`: allocate the binary, record `binary_size_` as its
original size and `name` as its name; read the `sizeof(Elf32_Ehdr)`-byte
identification prefix; take the class tag at `e_ident[EI_CLASS]` and store
it as the binary's type; dispatch to the 32-bit routine on `ELFCLASS32`, to
the 64-bit routine on `ELFCLASS64`, and fail with `CorruptedHeader`
(`LIEF::corrupted`) on `ELFCLASSNONE` and every other value. -/
def init (stream : Bytes) (name : String) (binary_size : Nat) :
    Except Err (ParseRoute × Binary) :=
  match ByteSource.read stream 0 sizeofElf32Ehdr with
  | Except.error e => Except.error e
  | Except.ok ehdr =>
    let cls := ehdr.getD EI_CLASS 0
    let b : Binary :=
      { type_ := cls, name := name, original_size := binary_size,
        segments := [], sections := [], dynamic_symbols := [],
        symbol_version_table := [] }
    if cls = ELFCLASS32 then parse_binary ParseRoute.elf32 stream b
    else if cls = ELFCLASS64 then parse_binary ParseRoute.elf64 stream b
    else Except.error Err.CorruptedHeader

/-- Modelled from the spec (§6 validation boundary; `is_elf` of
`LIEF/ELF/utils` is not in `src/`): the lightweight magic-number check that
classifies input as plausibly ELF: at least 4 bytes starting with
`0x7f 'E' 'L' 'F'`. -/
def is_elf (data : Bytes) : Bool :=
  decide (4 ≤ data.length) &&
  data.getD 0 0 == 0x7f && data.getD 1 0 == 0x45 &&
  data.getD 2 0 == 0x4c && data.getD 3 0 == 0x46

/-- The byte-buffer entry point
(`Parser::Parser(const std::vector<uint8_t>&, ...)` then `init`): the
abstract `LIEF::Parser` base is default-constructed — the constructor passes
it no size — so `binary_size_` keeps its default value 0 (the base class is
not in `src/`; its default member value is modelled as 0, and in any case it
cannot depend on the input bytes, which the base never sees). -/
def parse_from_data (data : Bytes) (name : String) :
    Except Err (ParseRoute × Binary) :=
  init data name 0

/-- The path entry point (`Parser::Parser(const std::string&, ...)` then
`init`): reject the input with `FormatMismatch` (`LIEF::bad_format`) when
`is_elf` fails, before any binary is allocated; otherwise parse the file's
bytes, with `binary_size_` set by the `LIEF::Parser{file}` base constructor
to the file's size (modelled from the spec: the collaborator resolves the
path to the byte buffer `data`). -/
def parse_from_file (file : String) (data : Bytes) :
    Except Err (ParseRoute × Binary) :=
  if is_elf data then init data file data.length
  else Except.error Err.FormatMismatch

/-! ### Concrete instances used by witnesses and counterexamples -/

/-- 52-byte header, class tag `ELFCLASS32`. -/
def C1_data32 : Bytes := [0, 0, 0, 0, 1] ++ List.replicate 47 0

/-- 52-byte header, class tag `ELFCLASS64`. -/
def C1_data64 : Bytes := [0, 0, 0, 0, 2] ++ List.replicate 47 0

/-- 52-byte header, class tag `ELFCLASSNONE`. -/
def C1_dataNone : Bytes := [0, 0, 0, 0, 0] ++ List.replicate 47 0

/-- Two dynamic symbols and two symbol versions (equal lengths). -/
def C2_bin_eq : Binary :=
  { type_ := 1, name := "", original_size := 0, segments := [], sections := [],
    dynamic_symbols := [⟨10, none⟩, ⟨11, none⟩],
    symbol_version_table := [⟨3⟩, ⟨4⟩] }

/-- One dynamic symbol but two symbol versions (length mismatch). -/
def C2_bin_ne : Binary :=
  { type_ := 1, name := "", original_size := 0, segments := [], sections := [],
    dynamic_symbols := [⟨10, none⟩],
    symbol_version_table := [⟨3⟩, ⟨4⟩] }

/-- A loadable segment mapping `[0x100, 0x200)` to file offset `0x10`. -/
def C3_load : Segment :=
  { seg_type := PT_LOAD, file_offset := 0x10, physical_size := 0x100,
    virtual_address := 0x100, memory_size := 0x100 }

/-- A dynamic segment whose 16-byte entry array sits at file offset 0. -/
def C3_dyn : Segment :=
  { seg_type := PT_DYNAMIC, file_offset := 0, physical_size := 16,
    virtual_address := 0x1000, memory_size := 16 }

/-- Two `Elf32_Dyn` entries, both tagged `DT_STRTAB`, with values `0x110`
and `0x120`. -/
def C3_stream : Bytes := [5, 0, 0, 0, 0x10, 1, 0, 0, 5, 0, 0, 0, 0x20, 1, 0, 0]

/-- A binary with a valid dynamic segment and a valid `.dynstr` section at a
different offset (99). -/
def C3_bin : Binary :=
  { type_ := 1, name := "", original_size := 0, segments := [C3_dyn, C3_load],
    sections := [⟨".dynstr", SHT_STRTAB, 99⟩], dynamic_symbols := [],
    symbol_version_table := [] }

def C4_load : Segment :=
  { seg_type := PT_LOAD, file_offset := 0x10, physical_size := 0x100,
    virtual_address := 0x100, memory_size := 0x100 }

def C4_dyn : Segment :=
  { seg_type := PT_DYNAMIC, file_offset := 0, physical_size := 16,
    virtual_address := 0x1000, memory_size := 16 }

/-- Two `DT_STRTAB` entries with distinct values `0x110` and `0x120`, whose
translations differ (`0x20` vs `0x30`). -/
def C4_stream : Bytes := [5, 0, 0, 0, 0x10, 1, 0, 0, 5, 0, 0, 0, 0x20, 1, 0, 0]

def C4_bin : Binary :=
  { type_ := 1, name := "", original_size := 0, segments := [C4_dyn, C4_load],
    sections := [], dynamic_symbols := [], symbol_version_table := [] }

def C5_load : Segment :=
  { seg_type := PT_LOAD, file_offset := 0x10, physical_size := 0x100,
    virtual_address := 0x100, memory_size := 0x100 }

def C5_dyn : Segment :=
  { seg_type := PT_DYNAMIC, file_offset := 0, physical_size := 16,
    virtual_address := 0x1000, memory_size := 16 }

def C5_stream : Bytes := [5, 0, 0, 0, 0x10, 1, 0, 0, 5, 0, 0, 0, 0x20, 1, 0, 0]

def C5_bin : Binary :=
  { type_ := 1, name := "", original_size := 0, segments := [C5_dyn, C5_load],
    sections := [], dynamic_symbols := [], symbol_version_table := [] }

/-- A dynamic segment holding one 8-byte entry. -/
def C5c_dyn : Segment :=
  { seg_type := PT_DYNAMIC, file_offset := 0, physical_size := 8,
    virtual_address := 0, memory_size := 8 }

/-- One `Elf32_Dyn` entry tagged `DT_NULL` (no `DT_STRTAB` entry at all). -/
def C5c_stream : Bytes := [0, 0, 0, 0, 0, 0, 0, 0]

def C5c_bin : Binary :=
  { type_ := 1, name := "", original_size := 0, segments := [C5c_dyn],
    sections := [], dynamic_symbols := [], symbol_version_table := [] }

/-- Two dynamic symbols; their versions will be read from the stream. -/
def C6_bin : Binary :=
  { type_ := 1, name := "", original_size := 0, segments := [], sections := [],
    dynamic_symbols := [⟨0, none⟩, ⟨1, none⟩], symbol_version_table := [] }

def C6_stream : Bytes := [7, 0, 9, 1]

/-- `2 ^ 32` dynamic symbols: the `static_cast<uint32_t>` narrows this count
to 0. -/
def C6c_bin : Binary :=
  { type_ := 1, name := "", original_size := 0, segments := [], sections := [],
    dynamic_symbols := List.replicate (2 ^ 32) ⟨0, none⟩,
    symbol_version_table := [] }

/-- A 52-byte buffer with the ELF magic and class tag `ELFCLASS32`. -/
def C8_data : Bytes := [0x7f, 0x45, 0x4c, 0x46, 1] ++ List.replicate 47 0

/-- The binary produced by the byte-buffer entry point on `C8_data`: its
recorded original size is 0, not 52. -/
def C8_bin_buffer : Binary :=
  { type_ := 1, name := "b", original_size := 0, segments := [], sections := [],
    dynamic_symbols := [], symbol_version_table := [] }

/-- The binary produced by the path entry point on `C8_data`: its recorded
original size is the input size 52. -/
def C8_bin_file : Binary :=
  { type_ := 1, name := "b", original_size := 52, segments := [], sections := [],
    dynamic_symbols := [], symbol_version_table := [] }

/-- A `.dynstr` section of string-table type whose file offset is 0. -/
def C9_bin : Binary :=
  { type_ := 1, name := "", original_size := 0, segments := [],
    sections := [⟨".dynstr", SHT_STRTAB, 0⟩], dynamic_symbols := [],
    symbol_version_table := [] }

/-- First dynamic segment: 16-byte entry array at file offset 0. -/
def C10_dynA : Segment :=
  { seg_type := PT_DYNAMIC, file_offset := 0, physical_size := 16,
    virtual_address := 0x1000, memory_size := 16 }

/-- Second dynamic segment: would read a different, single-entry array. -/
def C10_dynB : Segment :=
  { seg_type := PT_DYNAMIC, file_offset := 8, physical_size := 8,
    virtual_address := 0x2000, memory_size := 8 }

def C10_load : Segment :=
  { seg_type := PT_LOAD, file_offset := 0x10, physical_size := 0x100,
    virtual_address := 0x100, memory_size := 0x100 }

def C10_stream : Bytes := [5, 0, 0, 0, 0x10, 1, 0, 0, 5, 0, 0, 0, 0x20, 1, 0, 0]

def C10_bin : Binary :=
  { type_ := 1, name := "", original_size := 0,
    segments := [C10_dynA, C10_dynB, C10_load], sections := [],
    dynamic_symbols := [], symbol_version_table := [] }

/-! ### Helper lemmas -/

theorem getD_drop : ∀ (off : Nat) (l : Bytes) (j d : Nat),
    (l.drop off).getD j d = l.getD (off + j) d
  | 0, _, _, _ => by simp
  | _ + 1, [], _, _ => by simp
  | off + 1, x :: xs, j, d => by
    rw [List.drop_succ_cons, getD_drop off xs j d,
      show off + 1 + j = off + j + 1 by omega, List.getD_cons_succ]

theorem getD_take : ∀ (n : Nat) (l : Bytes) (j d : Nat), j < n →
    (l.take n).getD j d = l.getD j d
  | _, [], _, _, _ => by simp
  | 0, _ :: _, _, _, h => by omega
  | _ + 1, _ :: _, 0, _, _ => by simp
  | n + 1, x :: xs, j + 1, d, h => by
    rw [List.take_succ_cons, List.getD_cons_succ, List.getD_cons_succ,
      getD_take n xs j d (by omega)]

theorem readLE_slice : ∀ (w : Nat) (l : Bytes) (off len p : Nat), p + w ≤ len →
    readLE ((l.drop off).take len) p w = readLE l (off + p) w
  | 0, _, _, _, _, _ => by simp [readLE]
  | w + 1, l, off, len, p, h => by
    rw [readLE, readLE, getD_take len (l.drop off) p 0 (by omega), getD_drop,
      readLE_slice w l off len (p + 1) (by omega),
      show off + (p + 1) = off + p + 1 by omega]

theorem virtual_address_to_offset_error {b : Binary} {va : Nat} {e : Err}
    (h : b.virtual_address_to_offset va = Except.error e) :
    e = Err.UnmappedAddress := by
  unfold Binary.virtual_address_to_offset at h
  cases hf : b.segments.find? (fun s =>
      s.seg_type == PT_LOAD &&
      decide (s.virtual_address ≤ va) &&
      decide (va < s.virtual_address + s.memory_size)) with
  | some s => rw [hf] at h; cases h
  | none => rw [hf] at h; cases h; rfl

theorem read_error {data : Bytes} {o l : Nat} {e : Err}
    (h : ByteSource.read data o l = Except.error e) : e = Err.OutOfBounds := by
  unfold ByteSource.read at h
  split at h
  · cases h
  · cases h; rfl

theorem sections_error {b : Binary} {e : Err}
    (h : get_dynamic_string_table_from_sections b = Except.error e) :
    e = Err.ConversionError := by
  unfold get_dynamic_string_table_from_sections at h
  cases hf : b.sections.find? isDynstrSection with
  | some s =>
    rw [hf] at h
    by_cases hs : s.file_offset > 0
    · simp [hs] at h
    · simp [hs] at h
      exact h.symm
  | none => rw [hf] at h; cases h; rfl

theorem scan_error {b : Binary} :
    ∀ {es : List DynEntry} {acc : Nat} {e : Err},
    scanDynForStrtab b es acc = Except.error e → e = Err.UnmappedAddress := by
  intro es
  induction es with
  | nil => intro acc e h; cases h
  | cons x xs ih =>
    intro acc e h
    unfold scanDynForStrtab at h
    split at h
    · cases hv : b.virtual_address_to_offset x.d_val with
      | ok v => rw [hv] at h; exact ih h
      | error err =>
        rw [hv] at h
        cases h
        exact virtual_address_to_offset_error hv
    · exact ih h

/-- When the scan loop completes, its result is the starting accumulator when
no entry carries `DT_STRTAB`, and otherwise the translation of the value of
the last such entry. -/
theorem scan_ok_last {b : Binary} :
    ∀ {es : List DynEntry} {acc v : Nat},
    scanDynForStrtab b es acc = Except.ok v →
    (es.filter (fun e => e.d_tag == DT_STRTAB) = [] ∧ v = acc) ∨
    (∃ e, (es.filter (fun e => e.d_tag == DT_STRTAB)).getLast? = some e ∧
       b.virtual_address_to_offset e.d_val = Except.ok v) := by
  intro es
  induction es with
  | nil =>
    intro acc v h
    cases h
    exact Or.inl ⟨rfl, rfl⟩
  | cons x xs ih =>
    intro acc v h
    unfold scanDynForStrtab at h
    by_cases hx : x.d_tag = DT_STRTAB
    · rw [if_pos hx] at h
      cases hv : b.virtual_address_to_offset x.d_val with
      | error err => rw [hv] at h; cases h
      | ok w =>
        rw [hv] at h
        have hfx : (x :: xs).filter (fun e => e.d_tag == DT_STRTAB) =
            x :: xs.filter (fun e => e.d_tag == DT_STRTAB) := by
          simp [List.filter_cons, hx]
        rcases ih h with ⟨hnil, hva⟩ | ⟨e, hlast, hte⟩
        · refine Or.inr ⟨x, ?_, ?_⟩
          · rw [hfx, hnil]
            exact List.getLast?_singleton x
          · rw [hva]
            exact hv
        · refine Or.inr ⟨e, ?_, hte⟩
          rw [hfx]
          cases hys : xs.filter (fun e => e.d_tag == DT_STRTAB) with
          | nil => rw [hys] at hlast; cases hlast
          | cons y ys =>
            rw [hys] at hlast
            rw [List.getLast?_cons_cons, hlast]
    · rw [if_neg hx] at h
      have hfx : (x :: xs).filter (fun e => e.d_tag == DT_STRTAB) =
          xs.filter (fun e => e.d_tag == DT_STRTAB) := by
        simp [List.filter_cons, hx]
      rw [hfx]
      exact ih h

theorem find?_append_of_prefix_neg {α : Type} (p : α → Bool) :
    ∀ (xs rest : List α), (∀ x ∈ xs, p x = false) →
    (xs ++ rest).find? p = rest.find? p
  | [], _, _ => by simp
  | x :: xs, rest, h => by
    rw [List.cons_append,
      List.find?_cons_of_neg _ (by simp [h x (by simp)]),
      find?_append_of_prefix_neg p xs rest (fun y hy => h y (by simp [hy]))]

theorem find?_filter_not {α : Type} (p q : α → Bool)
    (hpq : ∀ x, q x = true → p x = false) :
    ∀ l : List α, (l.filter (fun x => !(q x))).find? p = l.find? p
  | [] => by simp
  | x :: xs => by
    cases hq : q x with
    | true =>
      rw [List.filter_cons, if_neg (by simp [hq]),
        List.find?_cons_of_neg _ (by simp [hpq x hq]),
        find?_filter_not p q hpq xs]
    | false =>
      rw [List.filter_cons, if_pos (by simp [hq])]
      cases hp : p x with
      | true => rw [List.find?_cons_of_pos _ hp, List.find?_cons_of_pos _ hp]
      | false =>
        rw [List.find?_cons_of_neg _ (by simp [hp]),
          List.find?_cons_of_neg _ (by simp [hp]),
          find?_filter_not p q hpq xs]

theorem scan_congr {b b' : Binary}
    (h : ∀ va, b.virtual_address_to_offset va = b'.virtual_address_to_offset va) :
    ∀ (es : List DynEntry) (acc : Nat),
    scanDynForStrtab b es acc = scanDynForStrtab b' es acc
  | [], _ => rfl
  | e :: es, acc => by
    unfold scanDynForStrtab
    rw [← h e.d_val]
    split
    · cases b.virtual_address_to_offset e.d_val with
      | ok v => exact scan_congr h es v
      | error err => rfl
    · exact scan_congr h es acc

theorem linked_getD :
    ∀ (syms : List Symbol) (vers : List SymbolVersion),
    syms.length = vers.length → ∀ i, i < syms.length →
    (((syms.zip vers).map
        (fun p : Symbol × SymbolVersion =>
          { p.1 with symbol_version := some p.2 })).getD i ⟨0, none⟩).symbol_version =
      some (vers.getD i ⟨0⟩)
  | [], _, _, i, hi => by simp at hi
  | _ :: _, [], h, _, _ => by simp at h
  | x :: xs, v :: vs, h, 0, hi => by
    rw [List.zip_cons_cons, List.map_cons, List.getD_cons_zero, List.getD_cons_zero]
  | x :: xs, v :: vs, h, i + 1, hi => by
    rw [List.zip_cons_cons, List.map_cons, List.getD_cons_succ, List.getD_cons_succ]
    exact linked_getD xs vs (by simpa using h) i (by simpa using hi)

/-- With a narrowed symbol count of zero, `parse_symbol_version` reads
nothing and appends nothing. -/
theorem parse_symbol_version_count_zero (b : Binary)
    (hb : b.dynamic_symbols.length % 2 ^ 32 = 0) :
    parse_symbol_version b [] 0 = Except.ok b := by
  simp only [parse_symbol_version, hb]
  have hread : ByteSource.read [] 0 (0 * 2) = Except.ok ([] : Bytes) := rfl
  simp only [hread, List.range_zero, List.map_nil, List.append_nil]

/-! ### Claim theorems -/

/-- C1: `Parser::init` reads the class tag at `e_ident[EI_CLASS]` of the
identification header and dispatches on it: the `ELFCLASS32` tag runs the
32-bit extraction routine, the `ELFCLASS64` tag runs the 64-bit routine, and
every other value — `ELFCLASSNONE` included — fails with `CorruptedHeader`,
the error carrying no partial result. -/
theorem C1_class_dispatch (stream : Bytes) (name : String) (binary_size : Nat)
    (h : sizeofElf32Ehdr ≤ stream.length) :
    (stream.getD EI_CLASS 0 = ELFCLASS32 →
      ∃ b, init stream name binary_size = Except.ok (ParseRoute.elf32, b)) ∧
    (stream.getD EI_CLASS 0 = ELFCLASS64 →
      ∃ b, init stream name binary_size = Except.ok (ParseRoute.elf64, b)) ∧
    (stream.getD EI_CLASS 0 ≠ ELFCLASS32 → stream.getD EI_CLASS 0 ≠ ELFCLASS64 →
      init stream name binary_size = Except.error Err.CorruptedHeader) := by
  have hread : ByteSource.read stream 0 sizeofElf32Ehdr =
      Except.ok ((stream.drop 0).take sizeofElf32Ehdr) := by
    unfold ByteSource.read
    rw [if_pos (by omega)]
  have hcls : ((stream.drop 0).take sizeofElf32Ehdr).getD EI_CLASS 0 =
      stream.getD EI_CLASS 0 := by
    rw [getD_take sizeofElf32Ehdr _ EI_CLASS 0
        (by norm_num [EI_CLASS, sizeofElf32Ehdr]),
      getD_drop, Nat.zero_add]
  refine ⟨?_, ?_, ?_⟩
  · intro h32
    simp only [init, hread, hcls, h32]
    exact ⟨_, rfl⟩
  · intro h64
    simp only [init, hread, hcls, h64]
    norm_num [ELFCLASS32, ELFCLASS64, parse_binary]
  · intro h32 h64
    simp only [init, hread, hcls]
    rw [if_neg h32, if_neg h64]

/-- C1 witness: concrete 52-byte inputs with class tags 1, 2 and 0. -/
theorem C1_class_dispatch_witness :
    (∃ b, init C1_data32 "x" 0 = Except.ok (ParseRoute.elf32, b)) ∧
    (∃ b, init C1_data64 "x" 0 = Except.ok (ParseRoute.elf64, b)) ∧
    init C1_dataNone "x" 0 = Except.error Err.CorruptedHeader :=
  ⟨(C1_class_dispatch C1_data32 "x" 0 (by decide)).1 (by decide),
   (C1_class_dispatch C1_data64 "x" 0 (by decide)).2.1 (by decide),
   (C1_class_dispatch C1_dataNone "x" 0 (by decide)).2.2 (by decide) (by decide)⟩

/-- C2: symbol-version linking is all-or-nothing.  When the dynamic-symbol
and symbol-version sequences have equal lengths, every symbol's version
reference equals the version at the same index; when the lengths differ,
`link_symbol_version` changes nothing, so no symbol receives a version
reference. -/
theorem C2_link_all_or_nothing (b : Binary) :
    (b.dynamic_symbols.length = b.symbol_version_table.length →
      (link_symbol_version b).dynamic_symbols.length = b.dynamic_symbols.length ∧
      ∀ i, i < b.dynamic_symbols.length →
        ((link_symbol_version b).dynamic_symbols.getD i ⟨0, none⟩).symbol_version =
          some (b.symbol_version_table.getD i ⟨0⟩)) ∧
    (b.dynamic_symbols.length ≠ b.symbol_version_table.length →
      link_symbol_version b = b) := by
  constructor
  · intro h
    unfold link_symbol_version
    rw [if_pos h]
    constructor
    · simp only [List.length_map, List.length_zip]
      omega
    · intro i hi
      exact linked_getD b.dynamic_symbols b.symbol_version_table h i hi
  · intro h
    unfold link_symbol_version
    rw [if_neg h]

/-- C2 witness: equal lengths link index 1 to version index 1; mismatched
lengths leave the binary unchanged. -/
theorem C2_link_all_or_nothing_witness :
    ((link_symbol_version C2_bin_eq).dynamic_symbols.getD 1 ⟨0, none⟩).symbol_version =
      some (C2_bin_eq.symbol_version_table.getD 1 ⟨0⟩) ∧
    link_symbol_version C2_bin_ne = C2_bin_ne :=
  ⟨((C2_link_all_or_nothing C2_bin_eq).1 rfl).2 1 (by decide),
   (C2_link_all_or_nothing C2_bin_ne).2 (by decide)⟩

/-- C7: the path-based entry point validates the input with the `is_elf`
magic check before parsing; every non-ELF input fails with the
format-mismatch error (`LIEF::bad_format`), the error carrying no
`BinaryImage`. -/
theorem C7_non_elf_rejected (file : String) (data : Bytes)
    (h : is_elf data = false) :
    parse_from_file file data = Except.error Err.FormatMismatch := by
  simp [parse_from_file, h]

/-- C7 witness: a 4-byte non-ELF input is rejected. -/
theorem C7_non_elf_rejected_witness :
    is_elf [0, 0, 0, 0] = false ∧
    parse_from_file "f" [0, 0, 0, 0] = Except.error Err.FormatMismatch :=
  ⟨by decide, C7_non_elf_rejected "f" [0, 0, 0, 0] (by decide)⟩

/-- C9: in the section strategy a `.dynstr` string-table section whose file
offset is 0 gives the same result as an absent section — `ConversionError` —
and the strategy never returns the null offset. -/
theorem C9_zero_offset_like_absent (b : Binary) :
    (∀ s, b.sections.find? isDynstrSection = some s → s.file_offset = 0 →
      get_dynamic_string_table_from_sections b = Except.error Err.ConversionError) ∧
    (b.sections.find? isDynstrSection = none →
      get_dynamic_string_table_from_sections b = Except.error Err.ConversionError) ∧
    (∀ v, get_dynamic_string_table_from_sections b = Except.ok v → 0 < v) := by
  refine ⟨?_, ?_, ?_⟩
  · intro s hf h0
    simp [get_dynamic_string_table_from_sections, hf, h0]
  · intro hf
    simp [get_dynamic_string_table_from_sections, hf]
  · intro v hv
    unfold get_dynamic_string_table_from_sections at hv
    cases hf : b.sections.find? isDynstrSection with
    | some s =>
      rw [hf] at hv
      by_cases hs : s.file_offset > 0
      · simp [hs] at hv
        omega
      · simp [hs] at hv
    | none =>
      rw [hf] at hv
      cases hv

/-- C9 witness: a `.dynstr` section of string-table type at offset 0 yields
`ConversionError`. -/
theorem C9_zero_offset_like_absent_witness :
    get_dynamic_string_table_from_sections C9_bin = Except.error Err.ConversionError :=
  (C9_zero_offset_like_absent C9_bin).1 ⟨".dynstr", SHT_STRTAB, 0⟩ rfl rfl

/-- C3: `get_dynamic_string_table` tries the segment strategy first; the
section strategy is attempted exactly when the segment strategy fails; when
the segment strategy succeeds its offset is returned; and when both
strategies fail the call fails with `ConversionError`. -/
theorem C3_fallback_order (b : Binary) (stream : Bytes) :
    (∀ o, get_dynamic_string_table_from_segments b stream = Except.ok o →
      get_dynamic_string_table b stream = Except.ok o) ∧
    (∀ e, get_dynamic_string_table_from_segments b stream = Except.error e →
      get_dynamic_string_table b stream = get_dynamic_string_table_from_sections b) ∧
    (∀ e e2, get_dynamic_string_table_from_segments b stream = Except.error e →
      get_dynamic_string_table_from_sections b = Except.error e2 →
      get_dynamic_string_table b stream = Except.error Err.ConversionError) := by
  refine ⟨?_, ?_, ?_⟩
  · intro o h
    simp [get_dynamic_string_table, h]
  · intro e h
    simp [get_dynamic_string_table, h]
  · intro e e2 h h2
    have he2 := sections_error h2
    simp [get_dynamic_string_table, h, h2, he2]

/-- C3 witness: with both a valid dynamic segment (offset 48) and a valid
`.dynstr` section (offset 99), the segment-derived offset is returned. -/
theorem C3_fallback_order_witness :
    get_dynamic_string_table_from_sections C3_bin = Except.ok 99 ∧
    get_dynamic_string_table C3_bin C3_stream = Except.ok 48 :=
  ⟨rfl, (C3_fallback_order C3_bin C3_stream).1 48 rfl⟩

/-- C4: when the dynamic segment's entry array holds more than one
`DT_STRTAB` entry, the offset the segment strategy returns is the
translation of the value of the last such entry in scan order (earlier
matches are overwritten; scanning does not stop at the first match).  The
statement quantifies over the binary's class, so it covers the
`decodeDyn32` and `decodeDyn64` paths — which feed one and the same scan
loop — identically. -/
theorem C4_last_write_wins (b : Binary) (stream : Bytes) (seg : Segment)
    (content : Bytes) (v : Nat)
    (hf : b.segments.find? isDynamicSegment = some seg)
    (hr : ByteSource.read stream seg.file_offset seg.physical_size = Except.ok content)
    (hok : get_dynamic_string_table_from_segments b stream = Except.ok v)
    (hmulti : 1 < ((dynEntriesOf b seg content).filter
        (fun e => e.d_tag == DT_STRTAB)).length) :
    ∃ e, ((dynEntriesOf b seg content).filter
        (fun e => e.d_tag == DT_STRTAB)).getLast? = some e ∧
      b.virtual_address_to_offset e.d_val = Except.ok v := by
  unfold get_dynamic_string_table_from_segments at hok
  rw [hf] at hok
  simp only [hr] at hok
  cases hs : scanDynForStrtab b (dynEntriesOf b seg content) 0 with
  | error e =>
    simp only [hs] at hok
    cases hok
  | ok w =>
    simp only [hs] at hok
    by_cases hw : w > 0
    · rw [if_pos hw] at hok
      cases hok
      rcases scan_ok_last hs with ⟨hnil, _⟩ | ⟨e, hl, ht⟩
      · rw [hnil] at hmulti
        simp at hmulti
      · exact ⟨e, hl, ht⟩
    · rw [if_neg hw] at hok
      cases hok

/-- C4 witness: two `DT_STRTAB` entries translating to 0x20 and 0x30; the
strategy returns 0x30, the translation of the last one. -/
theorem C4_last_write_wins_witness :
    ∃ e, ((dynEntriesOf C4_bin C4_dyn C4_stream).filter
        (fun e => e.d_tag == DT_STRTAB)).getLast? = some e ∧
      C4_bin.virtual_address_to_offset e.d_val = Except.ok 48 :=
  C4_last_write_wins C4_bin C4_stream C4_dyn C4_stream 48 rfl rfl rfl (by decide)

/-- C5 counterexample: a binary whose dynamic segment's entry array contains
no `DT_STRTAB` entry at all still fails with `ConversionError`, although a
dynamic segment exists and no translation of a string-table-address entry
took place (let alone one yielding the null offset).  This refutes the
claimed "exactly when" characterization. -/
theorem C5_counterexample :
    get_dynamic_string_table_from_segments C5c_bin C5c_stream =
      Except.error Err.ConversionError ∧
    C5c_bin.segments.find? isDynamicSegment = some C5c_dyn ∧
    ByteSource.read C5c_stream C5c_dyn.file_offset C5c_dyn.physical_size =
      Except.ok C5c_stream ∧
    (dynEntriesOf C5c_bin C5c_dyn C5c_stream).filter
      (fun e => e.d_tag == DT_STRTAB) = [] :=
  ⟨rfl, rfl, rfl, rfl⟩

/-- C5 amended: the segment strategy fails with `ConversionError` exactly
when no segment carries the dynamic type tag, or the entry array is read
successfully and the scan completes with accumulated offset zero (no
`DT_STRTAB` entry, or the last one's address translating to the null
offset); an out-of-bounds read of the entry array fails with `OutOfBounds`
and an unmapped address with `UnmappedAddress` instead; whenever the
strategy returns an offset, that offset is nonzero. -/
theorem C5_conversion_error_conditions (b : Binary) (stream : Bytes) :
    (∀ v, get_dynamic_string_table_from_segments b stream = Except.ok v → 0 < v) ∧
    (get_dynamic_string_table_from_segments b stream = Except.error Err.ConversionError ↔
      b.segments.find? isDynamicSegment = none ∨
      ∃ seg content, b.segments.find? isDynamicSegment = some seg ∧
        ByteSource.read stream seg.file_offset seg.physical_size = Except.ok content ∧
        scanDynForStrtab b (dynEntriesOf b seg content) 0 = Except.ok 0) := by
  constructor
  · intro v hv
    unfold get_dynamic_string_table_from_segments at hv
    cases hf : b.segments.find? isDynamicSegment with
    | none =>
      rw [hf] at hv
      cases hv
    | some seg =>
      rw [hf] at hv
      cases hr : ByteSource.read stream seg.file_offset seg.physical_size with
      | error e =>
        simp only [hr] at hv
        cases hv
      | ok content =>
        simp only [hr] at hv
        cases hs : scanDynForStrtab b (dynEntriesOf b seg content) 0 with
        | error e =>
          simp only [hs] at hv
          cases hv
        | ok w =>
          simp only [hs] at hv
          by_cases hw : w > 0
          · rw [if_pos hw] at hv
            cases hv
            exact hw
          · rw [if_neg hw] at hv
            cases hv
  · constructor
    · intro h
      unfold get_dynamic_string_table_from_segments at h
      cases hf : b.segments.find? isDynamicSegment with
      | none => exact Or.inl rfl
      | some seg =>
        rw [hf] at h
        cases hr : ByteSource.read stream seg.file_offset seg.physical_size with
        | error e =>
          simp only [hr] at h
          cases h
          cases read_error hr
        | ok content =>
          simp only [hr] at h
          cases hs : scanDynForStrtab b (dynEntriesOf b seg content) 0 with
          | error e =>
            simp only [hs] at h
            cases h
            cases scan_error hs
          | ok w =>
            simp only [hs] at h
            by_cases hw : w > 0
            · rw [if_pos hw] at h
              cases h
            · rw [if_neg hw] at h
              have hw0 : w = 0 := by omega
              subst hw0
              exact Or.inr ⟨seg, content, rfl, hr, hs⟩
    · intro h
      rcases h with hf | ⟨seg, content, hf, hr, hs⟩
      · unfold get_dynamic_string_table_from_segments
        rw [hf]
      · unfold get_dynamic_string_table_from_segments
        rw [hf]
        simp only [hr, hs]
        rfl

/-- C5 amended witness: a successful run returns the nonzero offset 48, and
the mpr direction produces `ConversionError` on the entry-array-without-
`DT_STRTAB` input. -/
theorem C5_conversion_error_conditions_witness :
    (0 : Nat) < 48 ∧
    get_dynamic_string_table_from_segments C5_bin C5_stream = Except.ok 48 :=
  ⟨(C5_conversion_error_conditions C5_bin C5_stream).1 48 rfl, rfl⟩

/-- C10: the segment strategy reads the dynamic-entry array only from the
first `PT_DYNAMIC` segment in sequence order: the `find_if` selects the
first dynamic segment, and deleting every dynamic segment that comes after
it changes nothing (the loadable segments that address translation uses are
kept). -/
theorem C10_first_dynamic_segment_wins (b : Binary) (stream : Bytes)
    (xs ys : List Segment) (d : Segment)
    (hsegs : b.segments = xs ++ d :: ys)
    (hxs : ∀ x ∈ xs, isDynamicSegment x = false)
    (hd : isDynamicSegment d = true) :
    b.segments.find? isDynamicSegment = some d ∧
    get_dynamic_string_table_from_segments b stream =
      get_dynamic_string_table_from_segments
        { b with segments := xs ++ d :: ys.filter (fun s => !(isDynamicSegment s)) }
        stream := by
  have hfind : b.segments.find? isDynamicSegment = some d := by
    rw [hsegs, find?_append_of_prefix_neg _ xs _ hxs, List.find?_cons_of_pos _ hd]
  have hfind2 : (xs ++ d :: ys.filter (fun s => !(isDynamicSegment s))).find?
      isDynamicSegment = some d := by
    rw [find?_append_of_prefix_neg _ xs _ hxs, List.find?_cons_of_pos _ hd]
  have hq : ∀ (p : Segment → Bool), (∀ x, isDynamicSegment x = true → p x = false) →
      List.find? p (xs ++ d :: ys) =
        List.find? p (xs ++ d :: ys.filter (fun s => !(isDynamicSegment s))) := by
    intro p hp
    rw [List.find?_append, List.find?_append]
    congr 1
    rw [List.find?_cons, List.find?_cons]
    cases hpd : p d
    · exact (find?_filter_not p isDynamicSegment hp ys).symm
    · rfl
  have htrans : ∀ va, b.virtual_address_to_offset va =
      Binary.virtual_address_to_offset
        { b with segments := xs ++ d :: ys.filter (fun s => !(isDynamicSegment s)) }
        va := by
    intro va
    unfold Binary.virtual_address_to_offset
    rw [hsegs, hq _ ?hload]
    case hload =>
      intro x hx
      have hx2 : x.seg_type = PT_DYNAMIC := by
        simpa [isDynamicSegment] using hx
      simp [hx2, PT_DYNAMIC, PT_LOAD]
  refine ⟨hfind, ?_⟩
  simp only [get_dynamic_string_table_from_segments, hfind, hfind2]
  cases hread : ByteSource.read stream d.file_offset d.physical_size with
  | error e => rfl
  | ok content =>
    simp only [hread]
    rw [scan_congr htrans (dynEntriesOf b d content) 0]
    rfl

/-- C10 witness: with two dynamic segments, the strategy's result equals
the result on the binary whose later dynamic segment is deleted, and the
entry array used is the first segment's (value 48). -/
theorem C10_first_dynamic_segment_wins_witness :
    C10_bin.segments.find? isDynamicSegment = some C10_dynA ∧
    get_dynamic_string_table_from_segments C10_bin C10_stream =
      get_dynamic_string_table_from_segments
        { C10_bin with segments := [] ++ C10_dynA ::
            [C10_dynB, C10_load].filter (fun s => !(isDynamicSegment s)) }
        C10_stream ∧
    get_dynamic_string_table_from_segments C10_bin C10_stream = Except.ok 48 :=
  ⟨(C10_first_dynamic_segment_wins C10_bin C10_stream [] [C10_dynB, C10_load]
      C10_dynA rfl (by simp) rfl).1,
   (C10_first_dynamic_segment_wins C10_bin C10_stream [] [C10_dynB, C10_load]
      C10_dynA rfl (by simp) rfl).2,
   rfl⟩

/-- C6 counterexample: with `2 ^ 32` dynamic symbols and an empty stream,
the claimed read of `2 * 2 ^ 32` bytes would exceed the stream and the claim
demands `OutOfBounds`; the code instead narrows the count with
`static_cast<uint32_t>` to 0, reads nothing, succeeds and appends no
version. -/
theorem C6_counterexample :
    C6c_bin.dynamic_symbols.length = 2 ^ 32 ∧
    ([] : Bytes).length < 0 + C6c_bin.dynamic_symbols.length * 2 ∧
    parse_symbol_version C6c_bin [] 0 = Except.ok C6c_bin := by
  have hd : C6c_bin.dynamic_symbols = List.replicate (2 ^ 32) ⟨0, none⟩ := rfl
  have hlen : C6c_bin.dynamic_symbols.length = 2 ^ 32 := by
    rw [hd, List.length_replicate]
  refine ⟨hlen, ?_, ?_⟩
  · rw [hlen]
    norm_num
  · exact parse_symbol_version_count_zero C6c_bin (by rw [hlen, Nat.mod_self])

/-- C6 amended: `parse_symbol_version` reads exactly
`count = len(dynamic_symbols) mod 2^32` (the count is narrowed to 32 bits by
`static_cast<uint32_t>`) contiguous 16-bit values starting at the given
offset and appends one SymbolVersion per value, in array order, to the
BinaryImage; it fails with `OutOfBounds` exactly when the `2 * count`-byte
read would exceed the stream. -/
theorem C6_read_versions (b : Binary) (stream : Bytes) (off : Nat) :
    (off + b.dynamic_symbols.length % 2 ^ 32 * 2 ≤ stream.length →
      parse_symbol_version b stream off =
        Except.ok { b with symbol_version_table :=
          b.symbol_version_table ++
            ((List.range (b.dynamic_symbols.length % 2 ^ 32)).map
              (fun i => ⟨readLE stream (off + 2 * i) 2⟩)) }) ∧
    (stream.length < off + b.dynamic_symbols.length % 2 ^ 32 * 2 →
      parse_symbol_version b stream off = Except.error Err.OutOfBounds) := by
  constructor
  · intro h
    have hr : ByteSource.read stream off (b.dynamic_symbols.length % 2 ^ 32 * 2) =
        Except.ok ((stream.drop off).take (b.dynamic_symbols.length % 2 ^ 32 * 2)) := by
      unfold ByteSource.read
      rw [if_pos (by omega)]
    simp only [parse_symbol_version, hr]
    have hmaps : (List.range (b.dynamic_symbols.length % 2 ^ 32)).map
        (fun i => (⟨readLE ((stream.drop off).take
            (b.dynamic_symbols.length % 2 ^ 32 * 2)) (2 * i) 2⟩ : SymbolVersion)) =
        (List.range (b.dynamic_symbols.length % 2 ^ 32)).map
          (fun i => ⟨readLE stream (off + 2 * i) 2⟩) := by
      apply List.map_congr_left
      intro i hi
      have hi2 : i < b.dynamic_symbols.length % 2 ^ 32 := List.mem_range.mp hi
      rw [readLE_slice 2 stream off (b.dynamic_symbols.length % 2 ^ 32 * 2) (2 * i)
        (by omega)]
    rw [hmaps]
  · intro h
    have hr : ByteSource.read stream off (b.dynamic_symbols.length % 2 ^ 32 * 2) =
        Except.error Err.OutOfBounds := by
      unfold ByteSource.read
      rw [if_neg (by omega)]
    simp only [parse_symbol_version, hr]

/-- C6 amended witness: two dynamic symbols and a 4-byte stream; the two
16-bit values 7 and 265 are appended in order. -/
theorem C6_read_versions_witness :
    parse_symbol_version C6_bin C6_stream 0 =
      Except.ok { C6_bin with symbol_version_table := [⟨7⟩, ⟨265⟩] } := by
  have h := (C6_read_versions C6_bin C6_stream 0).1 (by decide)
  rw [h]
  rfl

/-- C8: the original-size recording diverges between the entry points.  The
path entry point records the input size (52 for `C8_data`), but the
byte-buffer entry point default-constructs the abstract parser base without
passing the data size, so the recorded original size is 0, not the input
size — contradicting the spec's "record the original input size on the
result". -/
theorem C8_original_size_not_recorded :
    C8_data.length = 52 ∧
    parse_from_data C8_data "b" = Except.ok (ParseRoute.elf32, C8_bin_buffer) ∧
    C8_bin_buffer.original_size = 0 ∧
    parse_from_file "b" C8_data = Except.ok (ParseRoute.elf32, C8_bin_file) ∧
    C8_bin_file.original_size = 52 :=
  ⟨by decide, rfl, rfl, rfl, rfl⟩

end LIEFELF
